import Mathlib

/-!
# Verification of the traced-chatbot pipeline

A shallow embedding of `src/demo-langfuse-tracing.py`: the trace/span data
model recorded through the Langfuse client, the `/chat` request handler, the
`call_openai` and `process_response` stages, and the `__main__` startup check.
External collaborators (the OpenAI client, the Langfuse sink) are modelled as
oracles passed into the handler: the provider as a function from the request it
receives to either an exception or a response, the sink delivery as a boolean
outcome contained inside `flush`.
-/

namespace DemoLangfuse

/-- The `usage` block passed to `trace.generation` in `call_openai`
(keys `promptTokens`, `completionTokens`, `totalTokens`). -/
structure Usage where
  promptTokens : Nat
  completionTokens : Nat
  totalTokens : Nat
  deriving Repr, DecidableEq

/-- The provider response as consumed by `call_openai`:
`response.choices[0].message.content`, `response.model`, `response.usage`. -/
structure OpenAIResponse where
  text : String
  model : String
  prompt_tokens : Nat
  completion_tokens : Nat
  total_tokens : Nat
  deriving Repr, DecidableEq

/-- The dict `result` built in `call_openai` and handed to `process_response`. -/
structure LLMResult where
  text : String
  tokens : Nat
  model : String
  deriving Repr, DecidableEq

/-- The pydantic request model `ChatRequest` (`user_id` defaults to
`"anonymous"`). -/
structure ChatRequest where
  message : String
  user_id : String := "anonymous"
  deriving Repr, DecidableEq

/-- The pydantic response model `ChatResponse`. -/
structure ChatResponse where
  response : String
  trace_id : String
  trace_url : String
  tokens_used : Nat
  model : String
  deriving Repr, DecidableEq

/-- One `{role, content}` message of the chat-completion request. -/
structure ChatMessage where
  role : String
  content : String
  deriving Repr, DecidableEq

/-- The chat-completion request `call_openai` sends through
`openai_client.chat.completions.create`. -/
structure OpenAIRequest where
  model : String
  messages : List ChatMessage
  temperature : ℚ
  max_tokens : Nat
  deriving Repr, DecidableEq

/-- The generation record created by `trace.generation` in `call_openai`.
The Langfuse call records it in one shot: name, model, input, output, usage
and metadata are all set at creation. -/
structure GenerationRecord where
  name : String
  model : String
  input : String
  output : String
  usage : Usage
  metadata : List (String × String)
  deriving Repr, DecidableEq

/-- The plain span created by `trace.span` and closed by `span.end` in
`process_response`. `output` and `end_metadata` are `none` until `span.end`. -/
structure ProcessingSpan where
  name : String
  input : LLMResult
  metadata : List (String × String)
  output : Option LLMResult
  end_metadata : Option (List (String × String))
  deriving Repr, DecidableEq

/-- A child record of the trace, in creation order. -/
inductive ChildRecord where
  | generation (g : GenerationRecord)
  | plainSpan (s : ProcessingSpan)
  deriving Repr, DecidableEq

/-- The output dict set on the trace by `trace.update` in `chat`. -/
structure TraceOutput where
  response : String
  tokens : Nat
  deriving Repr, DecidableEq

/-- The trace record created by `langfuse.trace(...)` at the top of `chat`.
`output` stays `none` until `trace.update`; the code never sets a trace
status, so `status` stays `none` unless some call were to set it. -/
structure TraceRecord where
  id : String
  name : String
  user_id : String
  input_message : String
  metadata_timestamp : String
  metadata_message_length : Nat
  tags : List String
  children : List ChildRecord
  output : Option TraceOutput
  status : Option String
  deriving Repr, DecidableEq

/-- `langfuse.trace(id=trace_id, name="chat_conversation", ...)`:
the trace as created at the top of `chat`, before any span is recorded. -/
def beginTrace (trace_id : String) (req : ChatRequest) (now : String) :
    TraceRecord :=
  { id := trace_id
    name := "chat_conversation"
    user_id := req.user_id
    input_message := req.message
    metadata_timestamp := now
    metadata_message_length := req.message.length
    tags := ["chatbot", "gpt-3.5"]
    children := []
    output := none
    status := none }

/-- The system prompt literal of `call_openai`. -/
def systemPrompt : String :=
  "You are a helpful assistant that explains things simply."

/-- The exact chat-completion request built in `call_openai`:
model `gpt-3.5-turbo`, a system message then the user message,
temperature `0.7`, `max_tokens=500`. -/
def mkOpenAIRequest (message : String) : OpenAIRequest :=
  { model := "gpt-3.5-turbo"
    messages := [⟨"system", systemPrompt⟩, ⟨"user", message⟩]
    temperature := (0.7 : ℚ)
    max_tokens := 500 }

/-- The provider oracle: what `openai_client.chat.completions.create` does on
one call — either raises (`.error`) or returns a response (`.ok`). -/
def Provider : Type := OpenAIRequest → Except String OpenAIResponse

/-- `call_openai(message, trace)`: sends the request to the provider; on
success extracts the `result` dict and records a generation on the trace
(metadata is the constant `{"temperature": 0.7, "max_tokens": 500}` dict);
a provider exception propagates unchanged. Returns the updated trace and
the result. -/
def call_openai (message : String) (trace : TraceRecord)
    (provider : Provider) : Except String (TraceRecord × LLMResult) :=
  match provider (mkOpenAIRequest message) with
  | .error e => .error e
  | .ok resp =>
    let result : LLMResult :=
      { text := resp.text, tokens := resp.total_tokens, model := resp.model }
    let g : GenerationRecord :=
      { name := "openai_api_call"
        model := resp.model
        input := message
        output := result.text
        usage :=
          { promptTokens := resp.prompt_tokens
            completionTokens := resp.completion_tokens
            totalTokens := resp.total_tokens }
        metadata := [("temperature", "0.7"), ("max_tokens", "500")] }
    .ok ({ trace with children := trace.children ++ [.generation g] }, result)

/-- `process_response(llm_response, trace)`: opens a plain span named
`response_processing`, builds `processed` as an unchanged copy of its input,
and ends the span with `processed` as output. Returns the updated trace and
`processed`. -/
def process_response (llm_response : LLMResult) (trace : TraceRecord) :
    TraceRecord × LLMResult :=
  let processed : LLMResult :=
    { text := llm_response.text
      tokens := llm_response.tokens
      model := llm_response.model }
  let s : ProcessingSpan :=
    { name := "response_processing"
      input := llm_response
      metadata := [("step", "validation")]
      output := some processed
      end_metadata := some [("status", "passed")] }
  ({ trace with children := trace.children ++ [.plainSpan s] }, processed)

/-- Everything one `/chat` call leaves behind: the trace record as held by the
Langfuse client, whether `langfuse.flush()` was reached, whether the sink
delivery performed by that flush succeeded, and the HTTP outcome (`.ok` a
response body, `.error` an unhandled exception, surfaced as a failure). -/
structure ChatOutcome where
  trace : TraceRecord
  provider_requests : List OpenAIRequest
  flushed : Bool
  delivered : Bool
  http : Except String ChatResponse
  deriving Repr

/-- The `/chat` handler. Parameters model the handler's environment:
`langfuse_host` is `os.getenv("LANGFUSE_HOST")`, `now` the
`datetime.now().isoformat()` string, `trace_id` the `uuid.uuid4()` string,
`provider` the OpenAI client, `sinkDeliveryOk` the outcome of the sink
delivery triggered by `langfuse.flush()` (contained inside the sink per its
contract: `flush` itself does not raise). There is no try/except in the
handler: a provider exception propagates out of it. -/
def chat (req : ChatRequest) (langfuse_host : Option String) (now : String)
    (trace_id : String) (provider : Provider) (sinkDeliveryOk : Bool) :
    ChatOutcome :=
  let trace := beginTrace trace_id req now
  match call_openai req.message trace provider with
  | .error e =>
    { trace := trace
      provider_requests := [mkOpenAIRequest req.message]
      flushed := false
      delivered := false
      http := .error e }
  | .ok (trace1, llm_response) =>
    let (trace2, final_response) := process_response llm_response trace1
    let trace3 : TraceRecord :=
      { trace2 with
          output := some
            { response := final_response.text
              tokens := final_response.tokens } }
    let trace_url :=
      (langfuse_host.getD "http://localhost:3000") ++ "/trace/" ++ trace_id
    { trace := trace3
      provider_requests := [mkOpenAIRequest req.message]
      flushed := true
      delivered := sinkDeliveryOk
      http := .ok
        { response := final_response.text
          trace_id := trace_id
          trace_url := trace_url
          tokens_used := final_response.tokens
          model := final_response.model } }

/-- Modelled from the spec: `uuid.uuid4()` allocates an opaque identifier that
"must be globally unique across the process lifetime"; modelled as an
injective supply indexed by how many ids the process has allocated so far. -/
def uuid4 (n : Nat) : String := String.mk (List.replicate n 'u')

/-- The n-th `/chat` call in the process lifetime: its `uuid.uuid4()` draws
the n-th fresh id. -/
def chatCall (n : Nat) (req : ChatRequest) (langfuse_host : Option String)
    (now : String) (provider : Provider) (sinkDeliveryOk : Bool) :
    ChatOutcome :=
  chat req langfuse_host now (uuid4 n) provider sinkDeliveryOk

/-- Python truthiness of an `os.getenv` result: `None` and `""` are falsy. -/
def truthy : Option String → Bool
  | none => false
  | some s => !s.isEmpty

/-- The process environment as read by the module. -/
structure Env where
  openai_api_key : Option String
  langfuse_public_key : Option String
  langfuse_secret_key : Option String
  langfuse_host : Option String
  deriving Repr, DecidableEq

/-- The `required_keys` dict of the `__main__` block, in source order. -/
def required_keys (env : Env) : List (String × Option String) :=
  [("OPENAI_API_KEY", env.openai_api_key),
   ("LANGFUSE_PUBLIC_KEY", env.langfuse_public_key),
   ("LANGFUSE_SECRET_KEY", env.langfuse_secret_key)]

/-- `missing = [key for key, value in required_keys.items() if not value]`. -/
def missing_of (env : Env) : List String :=
  ((required_keys env).filter (fun kv => !truthy kv.2)).map Prod.fst

/-- What the `__main__` block ends in: either `exit(code)` after printing the
missing variable names, or `uvicorn.run(app, host, port)` binding the
listener. -/
inductive StartupOutcome where
  | exitFailure (code : Nat) (printed_missing : List String)
  | serverStarted (host : String) (port : Nat)
  deriving Repr, DecidableEq

/-- The `__main__` block: if any required key is missing (falsy), print every
missing name and `exit(1)`; only otherwise reach `uvicorn.run` and bind the
listener on `0.0.0.0:8000`. -/
def startup (env : Env) : StartupOutcome :=
  if (missing_of env).isEmpty then .serverStarted "0.0.0.0" 8000
  else .exitFailure 1 (missing_of env)

/-! Concrete instances used to exercise the pipeline. -/

/-- The spec's end-to-end example request. -/
def sampleReq : ChatRequest := { message := "What is AI?", user_id := "demo" }

/-- The spec's end-to-end example provider response:
text `"AI is..."`, usage 20/15/35. -/
def sampleResp : OpenAIResponse :=
  { text := "AI is..."
    model := "gpt-3.5-turbo-0125"
    prompt_tokens := 20
    completion_tokens := 15
    total_tokens := 35 }

/-- A provider that always succeeds with `sampleResp`. -/
def okProvider : Provider := fun _ => .ok sampleResp

/-- A provider whose API call raises. -/
def failProvider : Provider := fun _ => .error "Connection error."

/-- A provider reporting inconsistent usage: total 5 but prompt 1 plus
completion 1. -/
def mismatchProvider : Provider := fun _ =>
  .ok { text := "hello"
        model := "gpt-3.5-turbo-0125"
        prompt_tokens := 1
        completion_tokens := 1
        total_tokens := 5 }

/-- The response body of a sample successful call with trace id `"tid"`. -/
def sampleResponse : ChatResponse :=
  { response := "AI is..."
    trace_id := "tid"
    trace_url := "http://localhost:3000/trace/tid"
    tokens_used := 35
    model := "gpt-3.5-turbo-0125" }

/-- The response body of call number 0 of the process lifetime. -/
def sampleResponse0 : ChatResponse :=
  { response := "AI is..."
    trace_id := uuid4 0
    trace_url := "http://localhost:3000/trace/" ++ uuid4 0
    tokens_used := 35
    model := "gpt-3.5-turbo-0125" }

/-- The response body of call number 1 of the process lifetime. -/
def sampleResponse1 : ChatResponse :=
  { response := "AI is..."
    trace_id := uuid4 1
    trace_url := "http://localhost:3000/trace/" ++ uuid4 1
    tokens_used := 35
    model := "gpt-3.5-turbo-0125" }

/-- An environment with all three required credentials unset. -/
def env0 : Env :=
  { openai_api_key := none
    langfuse_public_key := none
    langfuse_secret_key := none
    langfuse_host := none }

/-! Helper lemmas shared by the claim theorems. -/

/-- What one successful `/chat` run leaves behind, in full. -/
theorem chat_ok_eq (req : ChatRequest) (host : Option String) (now tid : String)
    (provider : Provider) (b : Bool) (resp : OpenAIResponse)
    (h : provider (mkOpenAIRequest req.message) = .ok resp) :
    chat req host now tid provider b =
      { trace :=
          { beginTrace tid req now with
              children :=
                [.generation
                   { name := "openai_api_call"
                     model := resp.model
                     input := req.message
                     output := resp.text
                     usage := ⟨resp.prompt_tokens, resp.completion_tokens,
                               resp.total_tokens⟩
                     metadata := [("temperature", "0.7"), ("max_tokens", "500")] },
                 .plainSpan
                   { name := "response_processing"
                     input := ⟨resp.text, resp.total_tokens, resp.model⟩
                     metadata := [("step", "validation")]
                     output := some ⟨resp.text, resp.total_tokens, resp.model⟩
                     end_metadata := some [("status", "passed")] }]
              output := some ⟨resp.text, resp.total_tokens⟩ }
        provider_requests := [mkOpenAIRequest req.message]
        flushed := true
        delivered := b
        http := .ok
          { response := resp.text
            trace_id := tid
            trace_url := (host.getD "http://localhost:3000") ++ "/trace/" ++ tid
            tokens_used := resp.total_tokens
            model := resp.model } } := by
  unfold chat call_openai
  rw [h]
  rfl

/-- What one failed `/chat` run leaves behind, in full. -/
theorem chat_error_eq (req : ChatRequest) (host : Option String)
    (now tid : String) (provider : Provider) (b : Bool) (e : String)
    (h : provider (mkOpenAIRequest req.message) = .error e) :
    chat req host now tid provider b =
      { trace := beginTrace tid req now
        provider_requests := [mkOpenAIRequest req.message]
        flushed := false
        delivered := false
        http := .error e } := by
  unfold chat call_openai
  rw [h]

/-- A successful response always carries the trace id the handler allocated. -/
theorem chat_http_trace_id (req : ChatRequest) (host : Option String)
    (now tid : String) (provider : Provider) (b : Bool) (r : ChatResponse)
    (h : (chat req host now tid provider b).http = .ok r) :
    r.trace_id = tid := by
  cases hp : provider (mkOpenAIRequest req.message) with
  | error e =>
    rw [chat_error_eq req host now tid provider b e hp] at h
    exact absurd h (by simp)
  | ok resp =>
    rw [chat_ok_eq req host now tid provider b resp hp] at h
    simp only [Except.ok.injEq] at h
    rw [← h]

/-- The fresh-id supply never repeats an identifier. -/
theorem uuid4_injective : Function.Injective uuid4 := by
  intro a b h
  have h2 : List.replicate a 'u' = List.replicate b 'u' :=
    congrArg String.data h
  have h3 := congrArg List.length h2
  simpa using h3

/-- Membership in the missing-variable list for an unset key. -/
theorem mem_missing_of_none (env : Env) (k : String)
    (hk : (k, (none : Option String)) ∈ required_keys env) :
    k ∈ missing_of env :=
  List.mem_map.2 ⟨(k, none), List.mem_filter.2 ⟨hk, rfl⟩, rfl⟩

/-! Claim theorems. -/

/-- C1 (counterexample): on a concrete `/chat` request whose inference call
fails, the handler leaves no generation span at all (so none is ended with
status `error`), the trace is never finalized (no output, no status, hence
not finalized with status `error`), and `flush` is not reached — contrary to
the claim; only the failing HTTP outcome part holds. -/
theorem inference_failure_claim_cx :
    (chat sampleReq none "t" "tid" failProvider true).trace.children = [] ∧
    (chat sampleReq none "t" "tid" failProvider true).trace.status = none ∧
    (chat sampleReq none "t" "tid" failProvider true).trace.output = none ∧
    (chat sampleReq none "t" "tid" failProvider true).flushed = false ∧
    (chat sampleReq none "t" "tid" failProvider true).http =
      .error "Connection error." :=
  ⟨rfl, rfl, rfl, rfl, rfl⟩

/-- C1 (amended): for every `/chat` request whose inference call fails, the
exception propagates out of the handler unhandled: no generation span is
recorded, no post-processing span is created, the trace is left unfinalized
(no output and no status set), `flush` is not invoked, and the HTTP response
reports failure with the provider's error. -/
theorem inference_failure_propagates (req : ChatRequest) (host : Option String)
    (now tid : String) (provider : Provider) (b : Bool) (e : String)
    (h : provider (mkOpenAIRequest req.message) = .error e) :
    chat req host now tid provider b =
      { trace := beginTrace tid req now
        provider_requests := [mkOpenAIRequest req.message]
        flushed := false
        delivered := false
        http := .error e } :=
  chat_error_eq req host now tid provider b e h

/-- C1 (witness): the amended behaviour at a concrete failing call. -/
theorem inference_failure_propagates_witness :
    failProvider (mkOpenAIRequest sampleReq.message) = .error "Connection error." ∧
    chat sampleReq none "t" "tid" failProvider true =
      { trace := beginTrace "tid" sampleReq "t"
        provider_requests := [mkOpenAIRequest sampleReq.message]
        flushed := false
        delivered := false
        http := .error "Connection error." } :=
  ⟨rfl, inference_failure_propagates sampleReq none "t" "tid" failProvider true
    "Connection error." rfl⟩

/-- C2 (counterexample): on a concrete request whose provider reports usage
total 5 with prompt 1 and completion 1 (a mismatch, since 5 ≠ 1 + 1), the
recorded generation's metadata is exactly the constant
`{"temperature": 0.7, "max_tokens": 500}` dict — no warning is recorded
anywhere, because the code performs no usage check at all. The request does
succeed. -/
theorem usage_mismatch_claim_cx :
    (chat { message := "hi", user_id := "u" } none "t" "tid" mismatchProvider
        true).trace.children =
      [.generation
         { name := "openai_api_call"
           model := "gpt-3.5-turbo-0125"
           input := "hi"
           output := "hello"
           usage := ⟨1, 1, 5⟩
           metadata := [("temperature", "0.7"), ("max_tokens", "500")] },
       .plainSpan
         { name := "response_processing"
           input := ⟨"hello", 5, "gpt-3.5-turbo-0125"⟩
           metadata := [("step", "validation")]
           output := some ⟨"hello", 5, "gpt-3.5-turbo-0125"⟩
           end_metadata := some [("status", "passed")] }] ∧
    (5 : Nat) ≠ 1 + 1 ∧
    (chat { message := "hi", user_id := "u" } none "t" "tid" mismatchProvider
        true).http =
      .ok { response := "hello"
            trace_id := "tid"
            trace_url := "http://localhost:3000/trace/tid"
            tokens_used := 5
            model := "gpt-3.5-turbo-0125" } :=
  ⟨rfl, by decide, rfl⟩

/-- C2 (amended): the handler performs no usage-arithmetic check.  The
provider-reported prompt/completion/total counts are passed through to the
generation unchanged (never recomputed or overridden), the generation's
metadata is the constant temperature/max_tokens dict regardless of whether
the usage adds up, and the request never fails because of usage values. -/
theorem usage_passthrough (req : ChatRequest) (host : Option String)
    (now tid : String) (provider : Provider) (b : Bool) (resp : OpenAIResponse)
    (h : provider (mkOpenAIRequest req.message) = .ok resp) :
    ∃ g s,
      (chat req host now tid provider b).trace.children =
        [.generation g, .plainSpan s] ∧
      g.usage = ⟨resp.prompt_tokens, resp.completion_tokens,
                 resp.total_tokens⟩ ∧
      g.metadata = [("temperature", "0.7"), ("max_tokens", "500")] ∧
      ∃ r, (chat req host now tid provider b).http = .ok r := by
  rw [chat_ok_eq req host now tid provider b resp h]
  exact ⟨_, _, rfl, rfl, rfl, _, rfl⟩

/-- C2 (witness): the pass-through behaviour at the concrete mismatched-usage
provider: the generation records usage ⟨1, 1, 5⟩ verbatim and the request
succeeds. -/
theorem usage_passthrough_witness :
    mismatchProvider (mkOpenAIRequest "hi") =
      .ok { text := "hello"
            model := "gpt-3.5-turbo-0125"
            prompt_tokens := 1
            completion_tokens := 1
            total_tokens := 5 } ∧
    (∃ g s,
      (chat { message := "hi", user_id := "u" } none "t" "tid"
          mismatchProvider true).trace.children =
        [.generation g, .plainSpan s] ∧
      g.usage = ⟨1, 1, 5⟩ ∧
      g.metadata = [("temperature", "0.7"), ("max_tokens", "500")] ∧
      ∃ r, (chat { message := "hi", user_id := "u" } none "t" "tid"
          mismatchProvider true).http = .ok r) :=
  ⟨rfl, usage_passthrough { message := "hi", user_id := "u" } none "t" "tid"
    mismatchProvider true
    { text := "hello"
      model := "gpt-3.5-turbo-0125"
      prompt_tokens := 1
      completion_tokens := 1
      total_tokens := 5 } rfl⟩

/-- C3: for every successful `/chat` request, the response's `tokens_used`
equals the provider-reported usage total, its `model` equals the
provider-reported model string, and exactly one generation followed by
exactly one post-processing span are recorded under the trace, in that
creation order. -/
theorem success_response_shape (req : ChatRequest) (host : Option String)
    (now tid : String) (provider : Provider) (b : Bool)
    (resp : OpenAIResponse)
    (h : provider (mkOpenAIRequest req.message) = .ok resp) :
    ∃ r g s,
      (chat req host now tid provider b).http = .ok r ∧
      r.tokens_used = resp.total_tokens ∧
      r.model = resp.model ∧
      (chat req host now tid provider b).trace.children =
        [.generation g, .plainSpan s] ∧
      g.name = "openai_api_call" ∧
      s.name = "response_processing" := by
  rw [chat_ok_eq req host now tid provider b resp h]
  exact ⟨_, _, _, rfl, rfl, rfl, rfl, rfl, rfl⟩

/-- C3 (witness): the spec's end-to-end example — request "What is AI?",
usage 20/15/35 — yields `tokens_used` 35, the provider model string, and
one generation plus one post-processing span in creation order. -/
theorem success_response_shape_witness :
    okProvider (mkOpenAIRequest sampleReq.message) = .ok sampleResp ∧
    (∃ r g s,
      (chat sampleReq none "t" "tid" okProvider true).http = .ok r ∧
      r.tokens_used = sampleResp.total_tokens ∧
      r.model = sampleResp.model ∧
      (chat sampleReq none "t" "tid" okProvider true).trace.children =
        [.generation g, .plainSpan s] ∧
      g.name = "openai_api_call" ∧
      s.name = "response_processing") :=
  ⟨rfl, success_response_shape sampleReq none "t" "tid" okProvider true
    sampleResp rfl⟩

/-- C4: if any required credential among OPENAI_API_KEY,
LANGFUSE_PUBLIC_KEY, LANGFUSE_SECRET_KEY is absent at startup, the process
exits with status 1, the printed list of missing variables contains the name
of every absent credential, and the network listener is never bound. -/
theorem startup_missing_credentials (env : Env)
    (h : env.openai_api_key = none ∨ env.langfuse_public_key = none ∨
         env.langfuse_secret_key = none) :
    startup env = .exitFailure 1 (missing_of env) ∧
    (env.openai_api_key = none → "OPENAI_API_KEY" ∈ missing_of env) ∧
    (env.langfuse_public_key = none →
      "LANGFUSE_PUBLIC_KEY" ∈ missing_of env) ∧
    (env.langfuse_secret_key = none →
      "LANGFUSE_SECRET_KEY" ∈ missing_of env) ∧
    (∀ host port, startup env ≠ .serverStarted host port) := by
  have hmem : ∃ k, k ∈ missing_of env := by
    rcases h with h | h | h
    · exact ⟨"OPENAI_API_KEY",
        mem_missing_of_none env _ (by simp [required_keys, h])⟩
    · exact ⟨"LANGFUSE_PUBLIC_KEY",
        mem_missing_of_none env _ (by simp [required_keys, h])⟩
    · exact ⟨"LANGFUSE_SECRET_KEY",
        mem_missing_of_none env _ (by simp [required_keys, h])⟩
  obtain ⟨k, hk⟩ := hmem
  have hstart : startup env = .exitFailure 1 (missing_of env) := by
    cases hml : missing_of env with
    | nil => rw [hml] at hk; exact absurd hk (List.not_mem_nil k)
    | cons a l => simp [startup, hml]
  refine ⟨hstart, ?_, ?_, ?_, ?_⟩
  · intro h1
    exact mem_missing_of_none env _ (by simp [required_keys, h1])
  · intro h1
    exact mem_missing_of_none env _ (by simp [required_keys, h1])
  · intro h1
    exact mem_missing_of_none env _ (by simp [required_keys, h1])
  · intro host port hc
    rw [hstart] at hc
    exact StartupOutcome.noConfusion hc

/-- C4 (witness): startup with all three credentials unset exits with
status 1 carrying all three names and never starts the server. -/
theorem startup_missing_credentials_witness :
    (env0.openai_api_key = none ∨ env0.langfuse_public_key = none ∨
      env0.langfuse_secret_key = none) ∧
    (startup env0 = .exitFailure 1 (missing_of env0) ∧
    (env0.openai_api_key = none → "OPENAI_API_KEY" ∈ missing_of env0) ∧
    (env0.langfuse_public_key = none →
      "LANGFUSE_PUBLIC_KEY" ∈ missing_of env0) ∧
    (env0.langfuse_secret_key = none →
      "LANGFUSE_SECRET_KEY" ∈ missing_of env0) ∧
    (∀ host port, startup env0 ≠ .serverStarted host port)) :=
  ⟨Or.inl rfl, startup_missing_credentials env0 (Or.inl rfl)⟩

/-- C5 (counterexample): a concrete successful `/chat` run finalizes the
trace with the post-processed output but sets no status at all —
`trace.update` is called with `output` only, so the trace's status is `none`,
not `success`, contrary to the claim's "finalized with status success". -/
theorem success_no_status_claim_cx :
    (chat sampleReq none "t" "tid" okProvider true).trace.status = none ∧
    (chat sampleReq none "t" "tid" okProvider true).trace.output =
      some ⟨"AI is...", 35⟩ ∧
    (chat sampleReq none "t" "tid" okProvider true).http =
      .ok sampleResponse :=
  ⟨rfl, rfl, rfl⟩

/-- C5 (amended): for every successful `/chat` request, the trace is
finalized with the post-processed output (but no explicit status is set),
`flush` is invoked before responding, and the HTTP response is constructed
from the finalized trace's output, its id, and the deterministically derived
trace URL — the response body's text and token count equal the finalized
trace's output fields. -/
theorem success_finalize_flush_respond (req : ChatRequest)
    (host : Option String) (now tid : String) (provider : Provider) (b : Bool)
    (resp : OpenAIResponse)
    (h : provider (mkOpenAIRequest req.message) = .ok resp) :
    ∃ out,
      (chat req host now tid provider b).trace.output = some out ∧
      (chat req host now tid provider b).trace.status = none ∧
      (chat req host now tid provider b).flushed = true ∧
      (chat req host now tid provider b).http = .ok
        { response := out.response
          trace_id := (chat req host now tid provider b).trace.id
          trace_url := (host.getD "http://localhost:3000") ++ "/trace/" ++
            (chat req host now tid provider b).trace.id
          tokens_used := out.tokens
          model := resp.model } := by
  rw [chat_ok_eq req host now tid provider b resp h]
  exact ⟨_, rfl, rfl, rfl, rfl⟩

/-- C5 (witness): the amended behaviour on the spec's end-to-end example. -/
theorem success_finalize_flush_respond_witness :
    okProvider (mkOpenAIRequest sampleReq.message) = .ok sampleResp ∧
    (∃ out,
      (chat sampleReq none "t" "tid" okProvider true).trace.output =
        some out ∧
      (chat sampleReq none "t" "tid" okProvider true).trace.status = none ∧
      (chat sampleReq none "t" "tid" okProvider true).flushed = true ∧
      (chat sampleReq none "t" "tid" okProvider true).http = .ok
        { response := out.response
          trace_id := (chat sampleReq none "t" "tid" okProvider true).trace.id
          trace_url := ((none : Option String).getD "http://localhost:3000")
            ++ "/trace/" ++
            (chat sampleReq none "t" "tid" okProvider true).trace.id
          tokens_used := out.tokens
          model := sampleResp.model }) :=
  ⟨rfl, success_finalize_flush_respond sampleReq none "t" "tid" okProvider
    true sampleResp rfl⟩

/-- C6: for every successful `/chat` request, the response's `trace_url` is
the LANGFUSE_HOST environment value (defaulting to `http://localhost:3000`
when unset) followed by the literal `/trace/` and the response's
`trace_id`. -/
theorem trace_url_format (req : ChatRequest) (host : Option String)
    (now tid : String) (provider : Provider) (b : Bool) (r : ChatResponse)
    (h : (chat req host now tid provider b).http = .ok r) :
    r.trace_url =
      (host.getD "http://localhost:3000") ++ "/trace/" ++ r.trace_id := by
  cases hp : provider (mkOpenAIRequest req.message) with
  | error e =>
    rw [chat_error_eq req host now tid provider b e hp] at h
    exact absurd h (by simp)
  | ok resp =>
    rw [chat_ok_eq req host now tid provider b resp hp] at h
    simp only [Except.ok.injEq] at h
    rw [← h]

/-- C6 (witness): the URL format at a concrete successful call with
LANGFUSE_HOST unset. -/
theorem trace_url_format_witness :
    (chat sampleReq none "t" "tid" okProvider true).http =
      .ok sampleResponse ∧
    sampleResponse.trace_url =
      ((none : Option String).getD "http://localhost:3000") ++ "/trace/" ++
        sampleResponse.trace_id :=
  ⟨rfl, trace_url_format sampleReq none "t" "tid" okProvider true
    sampleResponse rfl⟩

/-- C7: for every `/chat` request that reaches post-processing, the stage is
wrapped in a plain span that is begun and then ended with an output, and the
stage is an identity pass-through: the span's output equals its input, whose
text, tokens and model are exactly the inference result's. -/
theorem postprocessing_span_identity (req : ChatRequest)
    (host : Option String) (now tid : String) (provider : Provider) (b : Bool)
    (resp : OpenAIResponse)
    (h : provider (mkOpenAIRequest req.message) = .ok resp) :
    ∃ g s,
      (chat req host now tid provider b).trace.children =
        [.generation g, .plainSpan s] ∧
      s.name = "response_processing" ∧
      s.output = some s.input ∧
      s.input =
        { text := resp.text, tokens := resp.total_tokens,
          model := resp.model } := by
  rw [chat_ok_eq req host now tid provider b resp h]
  exact ⟨_, _, rfl, rfl, rfl, rfl⟩

/-- C7 (witness): the identity pass-through span at a concrete successful
call. -/
theorem postprocessing_span_identity_witness :
    okProvider (mkOpenAIRequest sampleReq.message) = .ok sampleResp ∧
    (∃ g s,
      (chat sampleReq none "t" "tid" okProvider true).trace.children =
        [.generation g, .plainSpan s] ∧
      s.name = "response_processing" ∧
      s.output = some s.input ∧
      s.input =
        { text := sampleResp.text, tokens := sampleResp.total_tokens,
          model := sampleResp.model }) :=
  ⟨rfl, postprocessing_span_identity sampleReq none "t" "tid" okProvider true
    sampleResp rfl⟩

/-- C8: across the process lifetime, the `trace_id` carried by the response
of any successful `/chat` call differs from the `trace_id` of every other
call — each call draws a fresh identifier from the uuid supply. -/
theorem trace_id_unique (i j : Nat) (req1 req2 : ChatRequest)
    (h1 h2 : Option String) (n1 n2 : String) (p1 p2 : Provider)
    (b1 b2 : Bool) (r1 r2 : ChatResponse) (hij : i ≠ j)
    (hr1 : (chatCall i req1 h1 n1 p1 b1).http = .ok r1)
    (hr2 : (chatCall j req2 h2 n2 p2 b2).http = .ok r2) :
    r1.trace_id ≠ r2.trace_id := by
  unfold chatCall at hr1 hr2
  have e1 : r1.trace_id = uuid4 i :=
    chat_http_trace_id req1 h1 n1 (uuid4 i) p1 b1 r1 hr1
  have e2 : r2.trace_id = uuid4 j :=
    chat_http_trace_id req2 h2 n2 (uuid4 j) p2 b2 r2 hr2
  rw [e1, e2]
  intro hEq
  exact hij (uuid4_injective hEq)

/-- C8 (witness): calls 0 and 1 of the process lifetime return distinct
trace ids. -/
theorem trace_id_unique_witness :
    (0 : Nat) ≠ 1 ∧
    (chatCall 0 sampleReq none "t" okProvider true).http =
      .ok sampleResponse0 ∧
    (chatCall 1 sampleReq none "t" okProvider true).http =
      .ok sampleResponse1 ∧
    sampleResponse0.trace_id ≠ sampleResponse1.trace_id :=
  ⟨by decide, rfl, rfl,
    trace_id_unique 0 1 sampleReq sampleReq none none "t" "t" okProvider
      okProvider true true sampleResponse0 sampleResponse1 (by decide)
      rfl rfl⟩

/-- C9: the HTTP outcome of a `/chat` request is the same whatever the sink
delivery triggered by `langfuse.flush()` does — a telemetry-delivery failure
is contained inside the sink and never surfaces to the caller or changes the
response. -/
theorem sink_failure_isolated (req : ChatRequest) (host : Option String)
    (now tid : String) (provider : Provider) (b1 b2 : Bool) :
    (chat req host now tid provider b1).http =
      (chat req host now tid provider b2).http := by
  cases hp : provider (mkOpenAIRequest req.message) with
  | error e =>
    rw [chat_error_eq req host now tid provider b1 e hp,
        chat_error_eq req host now tid provider b2 e hp]
  | ok resp =>
    rw [chat_ok_eq req host now tid provider b1 resp hp,
        chat_ok_eq req host now tid provider b2 resp hp]

/-- C10: every `/chat` request sends the provider exactly one
chat-completion request, with model `gpt-3.5-turbo`, temperature 0.7,
`max_tokens` 500, and exactly two messages — the fixed system prompt followed
by one user message whose content is the request's message string. -/
theorem chat_provider_request (req : ChatRequest) (host : Option String)
    (now tid : String) (provider : Provider) (b : Bool) :
    (chat req host now tid provider b).provider_requests =
      [{ model := "gpt-3.5-turbo"
         messages :=
           [⟨"system",
             "You are a helpful assistant that explains things simply."⟩,
            ⟨"user", req.message⟩]
         temperature := (0.7 : ℚ)
         max_tokens := 500 }] := by
  cases hp : provider (mkOpenAIRequest req.message) with
  | error e => rw [chat_error_eq req host now tid provider b e hp]; rfl
  | ok resp => rw [chat_ok_eq req host now tid provider b resp hp]; rfl

end DemoLangfuse
